import Mathlib

/-!
Verification of the textual snake game core
(`textual_snake_game/core/models.py` and
`textual_snake_game/core/game_engine.py`), shallowly embedded in Lean.

Cells and direction vectors are integer pairs.  Python's `random.choice`
over a candidate list is modelled by an extra `choice : Nat` argument:
the element picked is the one at index `choice % length`, so theorems
quantified over `choice` cover every possible random outcome.
-/

/-- A board cell or a direction vector: an `(x, y)` pair of integers. -/
abbrev Pos := Int × Int

/-- Python `DIRECTIONS['up']` in `models.py`. -/
def dirUp : Pos := (0, -1)

/-- Python `DIRECTIONS['down']` in `models.py`. -/
def dirDown : Pos := (0, 1)

/-- Python `DIRECTIONS['left']` in `models.py`. -/
def dirLeft : Pos := (-1, 0)

/-- Python `DIRECTIONS['right']` in `models.py`. -/
def dirRight : Pos := (1, 0)

/-- The string-keyed `DIRECTIONS` table of `models.py`; unknown names
give `none` (Python: `direction not in DIRECTIONS`). -/
def DIRECTIONS : String → Option Pos
  | "up" => some dirUp
  | "down" => some dirDown
  | "left" => some dirLeft
  | "right" => some dirRight
  | _ => none

/-- The `Snake` class of `models.py`: ordered segment list (head first)
plus the current direction vector. -/
structure Snake where
  segments : List Pos
  direction : Pos
deriving DecidableEq, Repr

/-- Python `Snake.__init__`: `initial_length` segments in a horizontal line,
`(x - i, y)` for `i = 0, ..., initial_length - 1`, moving right. -/
def Snake.init (initial_position : Pos) (initial_length : Nat) : Snake :=
  { segments :=
      (List.range initial_length).map
        (fun (i : Nat) => (initial_position.1 - (i : Int), initial_position.2))
    direction := dirRight }

/-- Python `Snake.get_head`: `self.segments[0]`.  Python raises on an empty
list; the default `(0, 0)` is never exercised by any claim, which all
presuppose a nonempty snake. -/
def Snake.get_head (s : Snake) : Pos :=
  s.segments.headD (0, 0)

/-- Python `Snake.set_direction`: reject a 180-degree turn (componentwise sums
with the current direction both zero), otherwise store and accept.
Returns the updated snake and the Python return value. -/
def Snake.set_direction (s : Snake) (new_direction : Pos) : Snake × Bool :=
  if new_direction.1 + s.direction.1 = 0 ∧ new_direction.2 + s.direction.2 = 0 then
    (s, false)
  else
    ({ s with direction := new_direction }, true)

/-- Python `Snake.move`: prepend `head + direction`; pop the tail unless
growing. -/
def Snake.move (s : Snake) (grow : Bool) : Snake :=
  let new_head : Pos := (s.get_head.1 + s.direction.1, s.get_head.2 + s.direction.2)
  if grow then
    { s with segments := new_head :: s.segments }
  else
    { s with segments := (new_head :: s.segments).dropLast }

/-- Python `Snake.grow`: `self.move(grow=True)`. -/
def Snake.grow (s : Snake) : Snake :=
  s.move true

/-- Python `Snake.check_self_collision`: head appears in `segments[1:]`. -/
def Snake.check_self_collision (s : Snake) : Bool :=
  decide (s.get_head ∈ s.segments.tail)

/-- Python `Snake.get_length`: `len(self.segments)`. -/
def Snake.get_length (s : Snake) : Nat :=
  s.segments.length

/-- The `Food` class of `models.py`: board dimensions plus the current
position. -/
structure Food where
  board_width : Nat
  board_height : Nat
  position : Pos
deriving DecidableEq, Repr

/-- The cell `(x, y)` lies strictly inside the food's board. -/
def Food.inBounds (f : Food) (p : Pos) : Prop :=
  0 ≤ p.1 ∧ p.1 < (f.board_width : Int) ∧ 0 ≤ p.2 ∧ p.2 < (f.board_height : Int)

/-- The `all_positions` list built by `Food.place`: every board cell
`(x, y)`, scanned x-major, that is not a snake segment. -/
def Food.candidates (f : Food) (segs : List Pos) : List Pos :=
  (List.range f.board_width).flatMap fun (x : Nat) =>
    (List.range f.board_height).filterMap fun (y : Nat) =>
      if ((x : Int), (y : Int)) ∈ segs then none else some ((x : Int), (y : Int))

/-- The `random.choice(all_positions)` call of `Food.place`, modelled
by the index `choice % length` into the candidate list. -/
def Food.chosen (f : Food) (segs : List Pos) (choice : Nat) : Pos :=
  (f.candidates segs).getD (choice % (f.candidates segs).length) (0, 0)

/-- Python `Food.place`: store and return the chosen candidate, or the
sentinel `(0, 0)` when the snake covers the whole board. -/
def Food.place (f : Food) (snake : Snake) (choice : Nat) : Food × Pos :=
  if f.candidates snake.segments = [] then
    ({ f with position := (0, 0) }, (0, 0))
  else
    ({ f with position := f.chosen snake.segments choice },
      f.chosen snake.segments choice)

/-- The `GameState` dataclass: in Python it holds *references* to the
live `Snake` and `Food` objects; the pure embedding copies their
values (the reference semantics is modelled separately below). -/
structure GameState where
  snake : Snake
  food : Food
  score : Nat
  game_over : Bool
  board_width : Nat
  board_height : Nat
deriving DecidableEq, Repr

/-- The `GameEngine` class: board bounds, snake, food, score, flag. -/
structure GameEngine where
  board_width : Nat
  board_height : Nat
  snake : Snake
  food : Food
  score : Nat
  game_over : Bool
deriving DecidableEq, Repr

/-- Python `GameEngine.__init__`: snake from the given position and length,
food placed avoiding it, score 0, not game over. -/
def GameEngine.init (board_width board_height : Nat) (initial_snake_pos : Pos)
    (initial_snake_length : Nat) (choice : Nat) : GameEngine :=
  let snake := Snake.init initial_snake_pos initial_snake_length
  let food0 : Food :=
    { board_width := board_width, board_height := board_height, position := (0, 0) }
  { board_width := board_width
    board_height := board_height
    snake := snake
    food := (food0.place snake choice).fst
    score := 0
    game_over := false }

/-- Python `GameEngine.get_state`. -/
def GameEngine.get_state (e : GameEngine) : GameState :=
  { snake := e.snake
    food := e.food
    score := e.score
    game_over := e.game_over
    board_width := e.board_width
    board_height := e.board_height }

/-- Python `GameEngine.set_direction`: unknown names fail; otherwise delegate
to `Snake.set_direction`. -/
def GameEngine.set_direction (e : GameEngine) (direction : String) : GameEngine × Bool :=
  match DIRECTIONS direction with
  | none => (e, false)
  | some d =>
    let r := e.snake.set_direction d
    ({ e with snake := r.fst }, r.snd)

/-- Python `GameEngine.check_wall_collision`: head outside `[0,w) x [0,h)`. -/
def GameEngine.check_wall_collision (e : GameEngine) : Bool :=
  decide (e.snake.get_head.1 < 0 ∨ (e.board_width : Int) ≤ e.snake.get_head.1 ∨
    e.snake.get_head.2 < 0 ∨ (e.board_height : Int) ≤ e.snake.get_head.2)

/-- Python `GameEngine.check_food_collision`: current head equals food. -/
def GameEngine.check_food_collision (e : GameEngine) : Bool :=
  decide (e.snake.get_head = e.food.position)

/-- The projected next head computed at the top of `GameEngine.update`:
`(head_x + direction[0], head_y + direction[1])`. -/
def next_head (e : GameEngine) : Pos :=
  (e.snake.get_head.1 + e.snake.direction.1, e.snake.get_head.2 + e.snake.direction.2)

/-- The eating branch of `GameEngine.update`: grow the snake, place new
food avoiding it, increment the score. -/
def eatStep (e : GameEngine) (choice : Nat) : GameEngine :=
  { e with
    snake := e.snake.grow
    food := (e.food.place e.snake.grow choice).fst
    score := e.score + 1 }

/-- The normal-movement branch of `GameEngine.update`. -/
def moveStep (e : GameEngine) : GameEngine :=
  { e with snake := e.snake.move false }

/-- The tail of `GameEngine.update`: check wall and self collision on
the post-move state and set the game-over flag accordingly. -/
def adjudicate (e1 : GameEngine) : GameEngine × Bool :=
  if e1.check_wall_collision || e1.snake.check_self_collision then
    ({ e1 with game_over := true }, false)
  else
    (e1, true)

/-- Python `GameEngine.update`: no-op returning `False` when already over;
otherwise grow/eat or move using the projected head, then adjudicate
wall and self collision on the post-move state. -/
def GameEngine.update (e : GameEngine) (choice : Nat) : GameEngine × Bool :=
  if e.game_over then (e, false)
  else if next_head e = e.food.position then
    adjudicate (eatStep e choice)
  else
    adjudicate (moveStep e)

/-- Python `GameEngine.is_game_over`. -/
def GameEngine.is_game_over (e : GameEngine) : Bool :=
  e.game_over

/-- Python `GameEngine.get_game_over_reason`: empty when running, then wall
collision before self collision, else "Game ended". -/
def GameEngine.get_game_over_reason (e : GameEngine) : String :=
  if e.game_over = false then ""
  else if e.check_wall_collision then "Wall collision"
  else if e.snake.check_self_collision then "Self collision"
  else "Game ended"

/-- Python `GameEngine.reset`: fresh snake of length 3 at the board centre
(integer halves), fresh food avoiding it, score 0, flag cleared. -/
def GameEngine.reset (e : GameEngine) (choice : Nat) : GameEngine :=
  let snake := Snake.init ((e.board_width / 2 : Nat), (e.board_height / 2 : Nat)) 3
  let food0 : Food :=
    { board_width := e.board_width, board_height := e.board_height, position := (0, 0) }
  { e with
    snake := snake
    food := (food0.place snake choice).fst
    score := 0
    game_over := false }

/-- Python `GameEngine.end_game`: manually force the game-over flag. -/
def GameEngine.end_game (e : GameEngine) : GameEngine :=
  { e with game_over := true }

/-- Python `GameEngine.add_score`: add points, return the new score. -/
def GameEngine.add_score (e : GameEngine) (points : Nat) : GameEngine × Nat :=
  ({ e with score := e.score + points }, e.score + points)

/-- Two cells differ by exactly one unit in exactly one coordinate. -/
def unitStep (p q : Pos) : Prop :=
  ((p.1 - q.1).natAbs = 1 ∧ p.2 = q.2) ∨ (p.1 = q.1 ∧ (p.2 - q.2).natAbs = 1)

/-- A direction vector is one of the four unit vectors of `DIRECTIONS`. -/
def unitDir (d : Pos) : Prop :=
  d = dirRight ∨ d = dirLeft ∨ d = dirDown ∨ d = dirUp

/-- Engine states reachable by the public operations: construction
(with a positive initial length, as every caller in the repository
uses), direction changes, ticks, and resets. -/
inductive Reachable : GameEngine → Prop where
  | init (w h : Nat) (pos : Pos) (len choice : Nat) (hlen : 1 ≤ len) :
      Reachable (GameEngine.init w h pos len choice)
  | set_direction (e : GameEngine) (name : String) (h : Reachable e) :
      Reachable (e.set_direction name).fst
  | update (e : GameEngine) (choice : Nat) (h : Reachable e) :
      Reachable (e.update choice).fst
  | reset (e : GameEngine) (choice : Nat) (h : Reachable e) :
      Reachable (e.reset choice)

/-- The snake-shape invariant of the data model: positive length, a
connected path of unit steps, distinct segments except in the frozen
state right after a self-collision tick, and a unit direction vector. -/
def EngineInv (e : GameEngine) : Prop :=
  1 ≤ e.snake.get_length ∧
  List.Chain' unitStep e.snake.segments ∧
  (e.snake.segments.Nodup ∨ (e.game_over = true ∧ e.snake.check_self_collision = true)) ∧
  unitDir e.snake.direction

/-!
Reference semantics of `GameState` snapshots.  In Python,
`GameEngine.get_state` stores *references* to the engine's live `Snake`
and `Food` objects.  `update` mutates those objects in place
(`Snake.move` edits the segment list, `Food.place` overwrites the
position), while `reset` rebinds `self.snake` / `self.food` to freshly
constructed objects, leaving the old ones frozen.  `EngineH` models the
object store explicitly: object ids `0, ..., n-1` are the retired
objects in `oldSnakes` / `oldFoods`, and id `n` is the engine's current,
still-mutable object.
-/

/-- An engine together with the retired snake and food objects, so that
snapshots holding references to them remain meaningful. -/
structure EngineH where
  core : GameEngine
  oldSnakes : List Snake
  oldFoods : List Food
deriving DecidableEq, Repr

/-- A fresh engine: no retired objects yet. -/
def EngineH.init (board_width board_height : Nat) (initial_snake_pos : Pos)
    (initial_snake_length : Nat) (choice : Nat) : EngineH :=
  { core := GameEngine.init board_width board_height initial_snake_pos
      initial_snake_length choice
    oldSnakes := []
    oldFoods := [] }

/-- What a `GameState` snapshot actually stores: the *identities* of
the snake and food objects, and plain copies of the scalar fields. -/
structure GameStateRef where
  snakeId : Nat
  foodId : Nat
  score : Nat
  game_over : Bool
  board_width : Nat
  board_height : Nat
deriving DecidableEq, Repr

/-- Python `GameEngine.get_state` under reference semantics: the snapshot
aliases the current snake and food objects. -/
def EngineH.get_state (e : EngineH) : GameStateRef :=
  { snakeId := e.oldSnakes.length
    foodId := e.oldFoods.length
    score := e.core.score
    game_over := e.core.game_over
    board_width := e.core.board_width
    board_height := e.core.board_height }

/-- Python `update` mutates the current snake and food objects in place: the
object ids do not change, only the current values do. -/
def EngineH.update (e : EngineH) (choice : Nat) : EngineH × Bool :=
  let r := e.core.update choice
  ({ e with core := r.fst }, r.snd)

/-- Python `reset` rebinds `self.snake` and `self.food` to fresh objects; the
previous objects are retired and never mutated again. -/
def EngineH.reset (e : EngineH) (choice : Nat) : EngineH :=
  { core := e.core.reset choice
    oldSnakes := e.oldSnakes ++ [e.core.snake]
    oldFoods := e.oldFoods ++ [e.core.food] }

/-- Dereference a snake object id against the store. -/
def EngineH.snakeAt (e : EngineH) (i : Nat) : Option Snake :=
  if i = e.oldSnakes.length then some e.core.snake else e.oldSnakes[i]?

/-- Dereference a food object id against the store. -/
def EngineH.foodAt (e : EngineH) (i : Nat) : Option Food :=
  if i = e.oldFoods.length then some e.core.food else e.oldFoods[i]?

/-- The snake a previously taken snapshot observes in a later engine
state: it follows its stored reference. -/
def GameStateRef.viewSnake (s : GameStateRef) (e : EngineH) : Option Snake :=
  e.snakeAt s.snakeId

/-- The food a previously taken snapshot observes in a later engine
state. -/
def GameStateRef.viewFood (s : GameStateRef) (e : EngineH) : Option Food :=
  e.foodAt s.foodId

/-- A reachable engine on a 2-by-1 board: constructed with a length-2
snake filling the board, then turned up and left through the public
direction API.  Its projected next head is the food cell `(0, 0)`. -/
def c1Engine : GameEngine :=
  (((GameEngine.init 2 1 (1, 0) 2 0).set_direction "up").fst.set_direction "left").fst

/-- A game-over engine obtained from the default construction by the
manual `end_game` transition. -/
def overEngine : GameEngine :=
  (GameEngine.init 20 15 (10, 10) 3 0).end_game

/-- The default-construction engine under reference semantics. -/
def c9Engine : EngineH :=
  EngineH.init 20 15 (10, 10) 3 0

/-- A Running engine about to eat: food directly ahead of the head. -/
def eatEngine : GameEngine :=
  { board_width := 20
    board_height := 15
    snake := { segments := [(10, 10), (9, 10), (8, 10)], direction := dirRight }
    food := { board_width := 20, board_height := 15, position := (11, 10) }
    score := 0
    game_over := false }

/-- A Running engine with its head on the last column of a 20-wide
board, moving right: the next tick hits the wall. -/
def wallEngine : GameEngine :=
  { board_width := 20
    board_height := 15
    snake := { segments := [(19, 10), (18, 10), (17, 10)], direction := dirRight }
    food := { board_width := 20, board_height := 15, position := (0, 0) }
    score := 0
    game_over := false }

/-! ### Basic lemmas about the snake primitives -/

theorem Snake.grow_segments (s : Snake) :
    s.grow.segments
      = (s.get_head.1 + s.direction.1, s.get_head.2 + s.direction.2) :: s.segments := rfl

theorem Snake.grow_direction (s : Snake) : s.grow.direction = s.direction := rfl

theorem Snake.grow_head (s : Snake) :
    s.grow.get_head = (s.get_head.1 + s.direction.1, s.get_head.2 + s.direction.2) := rfl

theorem Snake.grow_length (s : Snake) : s.grow.get_length = s.get_length + 1 := by
  simp [Snake.get_length, Snake.grow_segments]

theorem Snake.move_segments (s : Snake) :
    (s.move false).segments
      = ((s.get_head.1 + s.direction.1, s.get_head.2 + s.direction.2)
          :: s.segments).dropLast := rfl

theorem Snake.move_direction (s : Snake) : (s.move false).direction = s.direction := rfl

theorem Snake.move_length (s : Snake) : (s.move false).get_length = s.get_length := by
  simp [Snake.get_length, Snake.move_segments]

theorem Snake.move_head (s : Snake) (h : s.segments ≠ []) :
    (s.move false).get_head = (s.get_head.1 + s.direction.1, s.get_head.2 + s.direction.2) := by
  obtain ⟨segs, d⟩ := s
  cases segs with
  | nil => exact absurd rfl h
  | cons a t => rfl

theorem Snake.set_direction_segments (s : Snake) (d : Pos) :
    (s.set_direction d).fst.segments = s.segments := by
  unfold Snake.set_direction
  split <;> rfl

/-! ### Lemmas about the pieces of `GameEngine.update` -/

theorem adjudicate_fst_snake (e1 : GameEngine) : (adjudicate e1).fst.snake = e1.snake := by
  unfold adjudicate; split <;> rfl

theorem adjudicate_fst_food (e1 : GameEngine) : (adjudicate e1).fst.food = e1.food := by
  unfold adjudicate; split <;> rfl

theorem adjudicate_fst_score (e1 : GameEngine) : (adjudicate e1).fst.score = e1.score := by
  unfold adjudicate; split <;> rfl

theorem adjudicate_fst_width (e1 : GameEngine) :
    (adjudicate e1).fst.board_width = e1.board_width := by
  unfold adjudicate; split <;> rfl

theorem adjudicate_fst_height (e1 : GameEngine) :
    (adjudicate e1).fst.board_height = e1.board_height := by
  unfold adjudicate; split <;> rfl

theorem adjudicate_fst_game_over (e1 : GameEngine) :
    (adjudicate e1).fst.game_over
      = ((e1.check_wall_collision || e1.snake.check_self_collision) || e1.game_over) := by
  unfold adjudicate
  cases h : (e1.check_wall_collision || e1.snake.check_self_collision) <;> simp [h]

theorem adjudicate_snd (e1 : GameEngine) :
    (adjudicate e1).snd = !(e1.check_wall_collision || e1.snake.check_self_collision) := by
  unfold adjudicate
  cases h : (e1.check_wall_collision || e1.snake.check_self_collision) <;> simp [h]

theorem update_eq_eat (e : GameEngine) (c : Nat) (hrun : e.game_over = false)
    (heat : next_head e = e.food.position) :
    e.update c = adjudicate (eatStep e c) := by
  unfold GameEngine.update
  rw [hrun]
  simp [heat]

theorem update_eq_move (e : GameEngine) (c : Nat) (hrun : e.game_over = false)
    (hne : next_head e ≠ e.food.position) :
    e.update c = adjudicate (moveStep e) := by
  unfold GameEngine.update
  rw [hrun]
  simp [hne]

/-- C2: on a Running tick that does not eat (projected next head is not
the food cell), `update` keeps the snake's length, moves the head to
`old head + direction`, and leaves score and food untouched. -/
theorem C2_normal_tick (e : GameEngine) (c : Nat)
    (hrun : e.game_over = false)
    (hne : next_head e ≠ e.food.position)
    (hseg : e.snake.segments ≠ []) :
    (e.update c).fst.snake.get_length = e.snake.get_length ∧
    (e.update c).fst.snake.get_head = next_head e ∧
    (e.update c).fst.score = e.score ∧
    (e.update c).fst.food = e.food := by
  rw [update_eq_move e c hrun hne]
  rw [adjudicate_fst_snake, adjudicate_fst_score, adjudicate_fst_food]
  refine ⟨Snake.move_length e.snake, ?_, rfl, rfl⟩
  exact Snake.move_head e.snake hseg

set_option maxRecDepth 8000 in
/-- C2 witness: a concrete Running engine whose next head misses the
food; the tick moves the head right and changes nothing else. -/
theorem C2_witness :
    (GameEngine.init 20 15 (10, 10) 3 0).game_over = false ∧
    next_head (GameEngine.init 20 15 (10, 10) 3 0)
      ≠ (GameEngine.init 20 15 (10, 10) 3 0).food.position ∧
    (GameEngine.init 20 15 (10, 10) 3 0).snake.segments ≠ [] ∧
    (((GameEngine.init 20 15 (10, 10) 3 0).update 0).fst.snake.get_length
        = (GameEngine.init 20 15 (10, 10) 3 0).snake.get_length ∧
      ((GameEngine.init 20 15 (10, 10) 3 0).update 0).fst.snake.get_head
        = next_head (GameEngine.init 20 15 (10, 10) 3 0) ∧
      ((GameEngine.init 20 15 (10, 10) 3 0).update 0).fst.score
        = (GameEngine.init 20 15 (10, 10) 3 0).score ∧
      ((GameEngine.init 20 15 (10, 10) 3 0).update 0).fst.food
        = (GameEngine.init 20 15 (10, 10) 3 0).food) := by
  refine ⟨by decide, by decide, by decide, ?_⟩
  exact C2_normal_tick _ 0 (by decide) (by decide) (by decide)

/-- C3: `Snake.set_direction` rejects exactly the 180-degree reversal of
the stored direction and accepts every other unit-vector request,
storing it. -/
theorem C3_reversal_guard (s : Snake) (r : Pos)
    (hd : unitDir s.direction) (hr : unitDir r) :
    (r = (-s.direction.1, -s.direction.2) →
      (s.set_direction r).snd = false ∧ (s.set_direction r).fst.direction = s.direction) ∧
    (r ≠ (-s.direction.1, -s.direction.2) →
      (s.set_direction r).snd = true ∧ (s.set_direction r).fst.direction = r) := by
  obtain ⟨segs, d⟩ := s
  simp only [unitDir] at hd hr
  rcases hd with hd | hd | hd | hd <;> rcases hr with hr | hr | hr | hr <;>
    simp_all [Snake.set_direction, dirUp, dirDown, dirLeft, dirRight]

/-- C3 witness: with direction right, requesting left is refused and
requesting up is stored. -/
theorem C3_witness :
    ((dirLeft = (-((Snake.mk [(5, 5)] dirRight).direction.1),
        -((Snake.mk [(5, 5)] dirRight).direction.2)) →
      ((Snake.mk [(5, 5)] dirRight).set_direction dirLeft).snd = false ∧
      ((Snake.mk [(5, 5)] dirRight).set_direction dirLeft).fst.direction
        = (Snake.mk [(5, 5)] dirRight).direction) ∧
    (dirLeft ≠ (-((Snake.mk [(5, 5)] dirRight).direction.1),
        -((Snake.mk [(5, 5)] dirRight).direction.2)) →
      ((Snake.mk [(5, 5)] dirRight).set_direction dirLeft).snd = true ∧
      ((Snake.mk [(5, 5)] dirRight).set_direction dirLeft).fst.direction = dirLeft)) ∧
    ((Snake.mk [(5, 5)] dirRight).set_direction dirLeft).snd = false := by
  refine ⟨C3_reversal_guard _ _ (Or.inl rfl) (Or.inr (Or.inl rfl)), by decide⟩

/-- C10: with stored direction right, requesting up and then left both
succeed, leaving the direction the exact opposite of the original: the
guard only compares against the currently stored direction. -/
theorem C10_double_turn_reverses (s : Snake) (h : s.direction = dirRight) :
    (s.set_direction dirUp).snd = true ∧
    ((s.set_direction dirUp).fst.set_direction dirLeft).snd = true ∧
    ((s.set_direction dirUp).fst.set_direction dirLeft).fst.direction = dirLeft := by
  obtain ⟨segs, d⟩ := s
  simp only at h
  subst h
  simp [Snake.set_direction, dirUp, dirLeft, dirRight]

/-- C10 witness: the two-step reversal on a concrete snake. -/
theorem C10_witness :
    ((Snake.mk [(5, 5)] dirRight).set_direction dirUp).snd = true ∧
    (((Snake.mk [(5, 5)] dirRight).set_direction dirUp).fst.set_direction dirLeft).snd = true ∧
    (((Snake.mk [(5, 5)] dirRight).set_direction dirUp).fst.set_direction
        dirLeft).fst.direction = dirLeft :=
  C10_double_turn_reverses (Snake.mk [(5, 5)] dirRight) rfl

/-! ### Lemmas about food placement -/

theorem Food.mem_candidates {f : Food} {segs : List Pos} {p : Pos} :
    p ∈ f.candidates segs ↔ f.inBounds p ∧ p ∉ segs := by
  unfold Food.candidates Food.inBounds
  constructor
  · intro hp
    rw [List.mem_flatMap] at hp
    obtain ⟨x, hx, hp2⟩ := hp
    rw [List.mem_filterMap] at hp2
    obtain ⟨y, hy, hxy⟩ := hp2
    rw [List.mem_range] at hx
    rw [List.mem_range] at hy
    by_cases hmem : ((x : Int), (y : Int)) ∈ segs
    · rw [if_pos hmem] at hxy
      exact absurd hxy (by simp)
    · rw [if_neg hmem] at hxy
      obtain rfl := Option.some.inj hxy
      refine ⟨⟨?_, ?_, ?_, ?_⟩, hmem⟩ <;> simp only [] <;> omega
  · rintro ⟨⟨h1, h2, h3, h4⟩, hnot⟩
    rw [List.mem_flatMap]
    refine ⟨p.1.toNat, ?_, ?_⟩
    · rw [List.mem_range]; omega
    · rw [List.mem_filterMap]
      refine ⟨p.2.toNat, ?_, ?_⟩
      · rw [List.mem_range]; omega
      · have hp1 : ((p.1.toNat : Int), (p.2.toNat : Int)) = p := by
          obtain ⟨a, b⟩ := p
          simp only [Prod.mk.injEq]
          constructor <;> omega
        rw [hp1, if_neg hnot]

theorem Food.place_mem (f : Food) (s : Snake) (c : Nat)
    (h : f.candidates s.segments ≠ []) :
    (f.place s c).snd ∈ f.candidates s.segments := by
  unfold Food.place
  rw [if_neg h]
  show f.chosen s.segments c ∈ f.candidates s.segments
  unfold Food.chosen
  have hidx : c % (f.candidates s.segments).length < (f.candidates s.segments).length :=
    Nat.mod_lt _ (List.length_pos.mpr h)
  rw [List.getD_eq_getElem _ _ hidx]
  exact List.getElem_mem hidx

theorem Food.place_position (f : Food) (s : Snake) (c : Nat) :
    (f.place s c).fst.position = (f.place s c).snd := by
  unfold Food.place
  split <;> rfl

/-- C6: whenever some board cell is off the snake, `Food.place` returns
an in-bounds cell off the snake and stores it as the new position. -/
theorem C6_place_in_bounds_avoids_snake (f : Food) (s : Snake) (c : Nat)
    (h : ∃ p : Pos, f.inBounds p ∧ p ∉ s.segments) :
    f.inBounds (f.place s c).snd ∧
    (f.place s c).snd ∉ s.segments ∧
    (f.place s c).fst.position = (f.place s c).snd := by
  obtain ⟨p, hp⟩ := h
  have hne : f.candidates s.segments ≠ [] :=
    List.ne_nil_of_mem (Food.mem_candidates.mpr hp)
  have hmem := Food.place_mem f s c hne
  rw [Food.mem_candidates] at hmem
  exact ⟨hmem.1, hmem.2, Food.place_position f s c⟩

/-- C6 witness: a 3-by-3 board with a one-segment snake at `(1, 1)`. -/
theorem C6_witness :
    (∃ p : Pos, (Food.mk 3 3 (0, 0)).inBounds p ∧ p ∉ (Snake.mk [(1, 1)] dirRight).segments) ∧
    ((Food.mk 3 3 (0, 0)).inBounds
        ((Food.mk 3 3 (0, 0)).place (Snake.mk [(1, 1)] dirRight) 0).snd ∧
      ((Food.mk 3 3 (0, 0)).place (Snake.mk [(1, 1)] dirRight) 0).snd
        ∉ (Snake.mk [(1, 1)] dirRight).segments ∧
      ((Food.mk 3 3 (0, 0)).place (Snake.mk [(1, 1)] dirRight) 0).fst.position
        = ((Food.mk 3 3 (0, 0)).place (Snake.mk [(1, 1)] dirRight) 0).snd) :=
  have hex : ∃ p : Pos,
      (Food.mk 3 3 (0, 0)).inBounds p ∧ p ∉ (Snake.mk [(1, 1)] dirRight).segments :=
    ⟨(0, 0), ⟨by norm_num, by norm_num, by norm_num, by norm_num⟩, by decide⟩
  ⟨hex, C6_place_in_bounds_avoids_snake _ _ 0 hex⟩

/-- C7: `reset` always rebuilds the same core state, three segments
rightward of the board centre moving right with zero score and the flag
cleared, and a second `reset` rebuilds the same snake, score and flag
again. -/
theorem C7_reset_deterministic (e : GameEngine) (c c2 : Nat) :
    (e.reset c).snake.segments
      = [(((e.board_width / 2 : Nat) : Int), ((e.board_height / 2 : Nat) : Int)),
         (((e.board_width / 2 : Nat) : Int) - 1, ((e.board_height / 2 : Nat) : Int)),
         (((e.board_width / 2 : Nat) : Int) - 2, ((e.board_height / 2 : Nat) : Int))] ∧
    (e.reset c).snake.direction = dirRight ∧
    (e.reset c).score = 0 ∧
    (e.reset c).game_over = false ∧
    ((e.reset c).reset c2).snake = (e.reset c).snake ∧
    ((e.reset c).reset c2).score = (e.reset c).score ∧
    ((e.reset c).reset c2).game_over = (e.reset c).game_over := by
  refine ⟨?_, rfl, rfl, rfl, rfl, rfl, rfl⟩
  have h3 : List.range 3 = [0, 1, 2] := rfl
  simp only [GameEngine.reset, Snake.init, h3, List.map_cons, List.map_nil]
  norm_num

/-! ### Collision adjudication and the wall-collision scenario -/

theorem adjudicate_fst_wall (e1 : GameEngine) :
    (adjudicate e1).fst.check_wall_collision = e1.check_wall_collision := by
  unfold adjudicate GameEngine.check_wall_collision
  split <;> rfl

theorem wall_of_head (e1 : GameEngine) (hw : e1.board_width = 20)
    (hh : e1.snake.get_head = (20, 10)) : e1.check_wall_collision = true := by
  unfold GameEngine.check_wall_collision
  rw [hh, hw, decide_eq_true_eq]
  right; left
  norm_num

theorem adjudicate_game_ends (e1 : GameEngine) (hw : e1.check_wall_collision = true) :
    (adjudicate e1).snd = false ∧
    (adjudicate e1).fst.is_game_over = true ∧
    (adjudicate e1).fst.get_game_over_reason = "Wall collision" := by
  have hover : (adjudicate e1).fst.game_over = true := by
    rw [adjudicate_fst_game_over, hw]
    simp
  refine ⟨?_, hover, ?_⟩
  · rw [adjudicate_snd, hw]
    simp
  · unfold GameEngine.get_game_over_reason
    rw [hover, adjudicate_fst_wall, hw]
    simp

/-- C4: a Running engine on a 20-wide board with head `(19, 10)` moving
right ends the game on the next tick with reason "Wall collision"; and
in any game-over state where both wall and self collision hold, the
reason reported is "Wall collision". -/
theorem C4_wall_collision_scenario :
    (∀ (e : GameEngine) (c : Nat),
      e.game_over = false → e.board_width = 20 →
      e.snake.get_head = (19, 10) → e.snake.direction = dirRight →
      (e.update c).snd = false ∧
      (e.update c).fst.is_game_over = true ∧
      (e.update c).fst.get_game_over_reason = "Wall collision") ∧
    (∀ e : GameEngine, e.game_over = true → e.check_wall_collision = true →
      e.snake.check_self_collision = true →
      e.get_game_over_reason = "Wall collision") := by
  constructor
  · intro e c hrun hw hh hd
    by_cases heat : next_head e = e.food.position
    · rw [update_eq_eat e c hrun heat]
      apply adjudicate_game_ends
      apply wall_of_head
      · exact hw
      · show e.snake.grow.get_head = (20, 10)
        rw [Snake.grow_head, hh, hd]
        decide
    · rw [update_eq_move e c hrun heat]
      apply adjudicate_game_ends
      apply wall_of_head
      · exact hw
      · have hseg : e.snake.segments ≠ [] := by
          intro h0
          rw [Snake.get_head, h0] at hh
          exact absurd hh (by decide)
        show (e.snake.move false).get_head = (20, 10)
        rw [Snake.move_head e.snake hseg, hh, hd]
        decide
  · intro e hov hwall hself
    unfold GameEngine.get_game_over_reason
    rw [hov, hwall]
    simp

/-- C4 witness: the scenario engine with head `(19, 10)` moving right,
and a concrete both-collisions state reported as wall collision. -/
theorem C4_witness :
    ((wallEngine.update 0).snd = false ∧
      (wallEngine.update 0).fst.is_game_over = true ∧
      (wallEngine.update 0).fst.get_game_over_reason = "Wall collision") ∧
    (GameEngine.mk 20 15 (Snake.mk [(20, 10), (21, 10), (20, 10)] dirRight)
        (Food.mk 20 15 (0, 0)) 0 true).get_game_over_reason = "Wall collision" :=
  ⟨C4_wall_collision_scenario.1 wallEngine 0 rfl rfl rfl rfl,
    C4_wall_collision_scenario.2 _ rfl (by decide) (by decide)⟩

/-! ### Behaviour after game over -/

theorem C5_counterexample :
    overEngine.game_over = true ∧
    (overEngine.set_direction "up").snd = true ∧
    (overEngine.set_direction "up").fst.snake.direction ≠ overEngine.snake.direction := by
  refine ⟨rfl, rfl, ?_⟩
  intro h
  exact absurd h (by decide)

/-- C5 (amended): after GameOver, `update` is a no-op returning
`false`, and an invalid direction name is a no-op returning `false`;
but a valid direction request is still forwarded to the snake — it can
change the stored direction — while leaving segments, food, score and
the game-over flag untouched.  No operation faults. -/
theorem C5_terminal_noop (e : GameEngine) (c : Nat) (h : e.game_over = true) :
    e.update c = (e, false) ∧
    (∀ name : String, DIRECTIONS name = none → e.set_direction name = (e, false)) ∧
    (∀ name : String,
      (e.set_direction name).fst.snake.segments = e.snake.segments ∧
      (e.set_direction name).fst.food = e.food ∧
      (e.set_direction name).fst.score = e.score ∧
      (e.set_direction name).fst.game_over = true) := by
  refine ⟨?_, ?_, ?_⟩
  · unfold GameEngine.update
    rw [h]
    rfl
  · intro name hn
    unfold GameEngine.set_direction
    rw [hn]
  · intro name
    unfold GameEngine.set_direction
    cases hD : DIRECTIONS name with
    | none => exact ⟨rfl, rfl, rfl, h⟩
    | some d => exact ⟨Snake.set_direction_segments e.snake d, rfl, rfl, h⟩

/-- C5 witness: the concrete game-over engine. -/
theorem C5_witness :
    overEngine.update 0 = (overEngine, false) ∧
    (overEngine.set_direction "up").fst.game_over = true :=
  ⟨(C5_terminal_noop overEngine 0 rfl).1,
    ((C5_terminal_noop overEngine 0 rfl).2.2 "up").2.2.2⟩

/-! ### Eating ticks -/

set_option maxRecDepth 2000 in
theorem C1_counterexample :
    c1Engine.game_over = false ∧
    next_head c1Engine = c1Engine.food.position ∧
    (c1Engine.update 0).fst.snake.get_length = c1Engine.snake.get_length + 1 ∧
    (c1Engine.update 0).fst.snake.get_head = next_head c1Engine ∧
    (c1Engine.update 0).fst.score = c1Engine.score + 1 ∧
    (c1Engine.update 0).fst.food.position = next_head c1Engine := by
  decide

/-- C1 (amended): on a Running eating tick, `update` grows the snake by
one with the new head at the projected cell and adds one point; and
provided some board cell is off the grown snake, the re-placed food
avoids the grown snake and in particular differs from the new head. -/
theorem C1_eating_tick (e : GameEngine) (c : Nat)
    (hrun : e.game_over = false)
    (heat : next_head e = e.food.position)
    (hfree : ∃ p : Pos, e.food.inBounds p ∧ p ∉ e.snake.grow.segments) :
    (e.update c).fst.snake.get_length = e.snake.get_length + 1 ∧
    (e.update c).fst.snake.get_head = next_head e ∧
    (e.update c).fst.score = e.score + 1 ∧
    (e.update c).fst.food.position ∉ (e.update c).fst.snake.segments ∧
    (e.update c).fst.food.position ≠ next_head e := by
  obtain ⟨p, hp⟩ := hfree
  have hne : e.food.candidates e.snake.grow.segments ≠ [] :=
    List.ne_nil_of_mem (Food.mem_candidates.mpr hp)
  rw [update_eq_eat e c hrun heat]
  rw [adjudicate_fst_snake, adjudicate_fst_food, adjudicate_fst_score]
  have hfood : (eatStep e c).food.position ∉ e.snake.grow.segments := by
    show (e.food.place e.snake.grow c).fst.position ∉ _
    rw [Food.place_position]
    exact (Food.mem_candidates.mp (Food.place_mem e.food e.snake.grow c hne)).2
  refine ⟨Snake.grow_length e.snake, ?_, rfl, hfood, ?_⟩
  · show e.snake.grow.get_head = _
    rw [Snake.grow_head]
    rfl
  · intro hcontra
    apply hfood
    show (eatStep e c).food.position ∈ e.snake.grow.segments
    rw [hcontra, Snake.grow_segments]
    exact List.mem_cons_self _ _

/-- C1 witness: food directly ahead on a 20-by-15 board with plenty of
free cells. -/
theorem C1_witness :
    eatEngine.game_over = false ∧
    next_head eatEngine = eatEngine.food.position ∧
    ((eatEngine.update 0).fst.snake.get_length = eatEngine.snake.get_length + 1 ∧
      (eatEngine.update 0).fst.snake.get_head = next_head eatEngine ∧
      (eatEngine.update 0).fst.score = eatEngine.score + 1 ∧
      (eatEngine.update 0).fst.food.position ∉ (eatEngine.update 0).fst.snake.segments ∧
      (eatEngine.update 0).fst.food.position ≠ next_head eatEngine) :=
  have hfree : ∃ p : Pos, eatEngine.food.inBounds p ∧ p ∉ eatEngine.snake.grow.segments :=
    ⟨(0, 0), ⟨by decide, by decide, by decide, by decide⟩, by decide⟩
  ⟨rfl, by decide, C1_eating_tick eatEngine 0 rfl (by decide) hfree⟩

/-! ### Snapshots under reference semantics -/

set_option maxRecDepth 8000 in
theorem C9_counterexample :
    (c9Engine.get_state).viewSnake (c9Engine.update 0).fst
      ≠ (c9Engine.get_state).viewSnake c9Engine := by
  decide

/-- C9 (amended): a snapshot copies score, game-over flag and board
dimensions by value, but aliases the live snake and food objects, so
`update` mutates what it observes; after a `reset` the snapshot's
objects are retired at their pre-reset values and later ticks no
longer change what it observes. -/
theorem C9_snapshot_aliasing (e : EngineH) (c c2 : Nat) :
    (e.get_state.score = e.core.score ∧
      e.get_state.game_over = e.core.game_over ∧
      e.get_state.board_width = e.core.board_width ∧
      e.get_state.board_height = e.core.board_height) ∧
    e.get_state.viewSnake (e.reset c) = some e.core.snake ∧
    e.get_state.viewFood (e.reset c) = some e.core.food ∧
    e.get_state.viewSnake ((e.reset c).update c2).fst = e.get_state.viewSnake (e.reset c) ∧
    e.get_state.viewFood ((e.reset c).update c2).fst = e.get_state.viewFood (e.reset c) := by
  refine ⟨⟨rfl, rfl, rfl, rfl⟩, ?_, ?_, ?_, ?_⟩ <;>
    simp [EngineH.get_state, GameStateRef.viewSnake, GameStateRef.viewFood,
      EngineH.snakeAt, EngineH.foodAt, EngineH.reset, EngineH.update,
      List.getElem?_concat_length]

/-! ### The snake-shape invariant (C8) -/

theorem unitStep_add (p d : Pos) (hd : unitDir d) :
    unitStep (p.1 + d.1, p.2 + d.2) p := by
  rcases hd with h | h | h | h <;> subst h <;> unfold unitStep <;>
    simp [dirRight, dirLeft, dirDown, dirUp]

theorem chain_dropLast {R : Pos → Pos → Prop} :
    ∀ l : List Pos, List.Chain' R l → List.Chain' R l.dropLast := by
  intro l
  induction l with
  | nil => intro h; simp
  | cons a t ih =>
    cases t with
    | nil => intro h; simp
    | cons b t2 =>
      intro h
      rw [List.chain'_cons] at h
      have hd := ih h.2
      rw [show (a :: b :: t2).dropLast = a :: (b :: t2).dropLast from rfl]
      rw [List.chain'_cons']
      refine ⟨?_, hd⟩
      intro y hy
      cases t2 with
      | nil => simp at hy
      | cons p t3 =>
        rw [show (b :: p :: t3).dropLast = b :: (p :: t3).dropLast from rfl] at hy
        simp only [List.head?_cons, Option.mem_def, Option.some.injEq] at hy
        subst hy
        exact h.1

theorem chain_cons_dropLast (a : Pos) (t : List Pos) (d : Pos) (hd : unitDir d)
    (hc : List.Chain' unitStep (a :: t)) :
    List.Chain' unitStep ((a.1 + d.1, a.2 + d.2) :: (a :: t).dropLast) := by
  cases t with
  | nil => simp
  | cons b t2 =>
    have h2 := chain_dropLast (a :: b :: t2) hc
    rw [show (a :: b :: t2).dropLast = a :: (b :: t2).dropLast from rfl] at h2
    exact List.chain'_cons.mpr ⟨unitStep_add a d hd, h2⟩

theorem snakeInit_inv (pos : Pos) (len : Nat) (hlen : 1 ≤ len) :
    1 ≤ (Snake.init pos len).get_length ∧
    List.Chain' unitStep (Snake.init pos len).segments ∧
    (Snake.init pos len).segments.Nodup ∧
    (Snake.init pos len).direction = dirRight := by
  refine ⟨?_, ?_, ?_, rfl⟩
  · simpa [Snake.init, Snake.get_length] using hlen
  · unfold Snake.init
    rw [List.chain'_map]
    obtain ⟨m, rfl⟩ : ∃ m, len = m + 1 := ⟨len - 1, by omega⟩
    rw [List.chain'_range_succ]
    intro i hi
    unfold unitStep
    left
    constructor
    · push_cast
      omega
    · rfl
  · unfold Snake.init
    refine List.Nodup.map ?_ (List.nodup_range len)
    intro i j hij
    simp only [Prod.mk.injEq] at hij
    omega

theorem snake_grow_inv (s : Snake) (a : Pos) (t : List Pos)
    (hat : s.segments = a :: t) (hd : unitDir s.direction)
    (hc : List.Chain' unitStep s.segments) (hn : s.segments.Nodup) :
    1 ≤ s.grow.get_length ∧
    List.Chain' unitStep s.grow.segments ∧
    (s.grow.segments.Nodup ∨ s.grow.check_self_collision = true) := by
  have hhead : s.get_head = a := by rw [Snake.get_head, hat]; rfl
  have hsegs : s.grow.segments = (a.1 + s.direction.1, a.2 + s.direction.2) :: a :: t := by
    rw [Snake.grow_segments, hhead, hat]
  refine ⟨?_, ?_, ?_⟩
  · rw [Snake.get_length, hsegs]
    simp
  · rw [hsegs]
    exact List.chain'_cons.mpr ⟨unitStep_add a s.direction hd, hat ▸ hc⟩
  · by_cases hmem : (a.1 + s.direction.1, a.2 + s.direction.2) ∈ a :: t
    · right
      unfold Snake.check_self_collision
      rw [Snake.get_head, hsegs]
      exact decide_eq_true hmem
    · left
      rw [hsegs]
      exact List.nodup_cons.mpr ⟨hmem, hat ▸ hn⟩

theorem snake_move_inv (s : Snake) (a : Pos) (t : List Pos)
    (hat : s.segments = a :: t) (hd : unitDir s.direction)
    (hc : List.Chain' unitStep s.segments) (hn : s.segments.Nodup) :
    1 ≤ (s.move false).get_length ∧
    List.Chain' unitStep (s.move false).segments ∧
    ((s.move false).segments.Nodup ∨ (s.move false).check_self_collision = true) := by
  have hhead : s.get_head = a := by rw [Snake.get_head, hat]; rfl
  have hsegs : (s.move false).segments
      = (a.1 + s.direction.1, a.2 + s.direction.2) :: (a :: t).dropLast := by
    rw [Snake.move_segments, hhead, hat]
    rfl
  refine ⟨?_, ?_, ?_⟩
  · rw [Snake.get_length, hsegs]
    simp
  · rw [hsegs]
    exact chain_cons_dropLast a t s.direction hd (hat ▸ hc)
  · by_cases hmem : (a.1 + s.direction.1, a.2 + s.direction.2) ∈ (a :: t).dropLast
    · right
      unfold Snake.check_self_collision
      rw [Snake.get_head, hsegs]
      exact decide_eq_true hmem
    · left
      rw [hsegs]
      exact List.nodup_cons.mpr
        ⟨hmem, (hat ▸ hn).sublist (List.dropLast_sublist _)⟩

theorem adjudicate_fst_selfc (e1 : GameEngine) :
    (adjudicate e1).fst.snake.check_self_collision = e1.snake.check_self_collision := by
  rw [adjudicate_fst_snake]

theorem engineInv_adjudicate (e1 : GameEngine)
    (h1 : 1 ≤ e1.snake.get_length)
    (h2 : List.Chain' unitStep e1.snake.segments)
    (h3 : e1.snake.segments.Nodup ∨ e1.snake.check_self_collision = true)
    (h4 : unitDir e1.snake.direction) :
    EngineInv (adjudicate e1).fst := by
  refine ⟨?_, ?_, ?_, ?_⟩
  · rw [adjudicate_fst_snake]; exact h1
  · rw [adjudicate_fst_snake]; exact h2
  · rcases h3 with h3 | h3
    · left
      rw [adjudicate_fst_snake]
      exact h3
    · right
      constructor
      · rw [adjudicate_fst_game_over, h3]
        simp
      · rw [adjudicate_fst_snake]
        exact h3
  · rw [adjudicate_fst_snake]; exact h4

theorem update_terminal (e : GameEngine) (c : Nat) (h : e.game_over = true) :
    e.update c = (e, false) := by
  unfold GameEngine.update
  rw [h]
  rfl

theorem DIRECTIONS_unitDir (name : String) (d : Pos) (h : DIRECTIONS name = some d) :
    unitDir d := by
  unfold DIRECTIONS at h
  split at h <;> simp_all [unitDir]

theorem Snake.set_direction_self (s : Snake) (d : Pos) :
    (s.set_direction d).fst.check_self_collision = s.check_self_collision := by
  unfold Snake.set_direction Snake.check_self_collision Snake.get_head
  split <;> rfl

theorem Snake.set_direction_dir (s : Snake) (d : Pos) :
    (s.set_direction d).fst.direction = d ∨ (s.set_direction d).fst.direction = s.direction := by
  unfold Snake.set_direction
  split
  · right; rfl
  · left; rfl

theorem engineInv_init (w h : Nat) (pos : Pos) (len c : Nat) (hlen : 1 ≤ len) :
    EngineInv (GameEngine.init w h pos len c) := by
  obtain ⟨k1, k2, k3, k4⟩ := snakeInit_inv pos len hlen
  exact ⟨k1, k2, Or.inl k3, Or.inl k4⟩

theorem engineInv_reset (e : GameEngine) (c : Nat) :
    EngineInv (e.reset c) := by
  obtain ⟨k1, k2, k3, k4⟩ :=
    snakeInit_inv ((e.board_width / 2 : Nat), (e.board_height / 2 : Nat)) 3 (by norm_num)
  exact ⟨k1, k2, Or.inl k3, Or.inl k4⟩

theorem engineInv_set_direction (e : GameEngine) (name : String) (h : EngineInv e) :
    EngineInv (e.set_direction name).fst := by
  unfold GameEngine.set_direction
  cases hD : DIRECTIONS name with
  | none => exact h
  | some d =>
    obtain ⟨h1, h2, h3, h4⟩ := h
    refine ⟨?_, ?_, ?_, ?_⟩
    · show 1 ≤ (e.snake.set_direction d).fst.get_length
      rw [Snake.get_length, Snake.set_direction_segments]
      exact h1
    · show List.Chain' unitStep (e.snake.set_direction d).fst.segments
      rw [Snake.set_direction_segments]
      exact h2
    · rcases h3 with h3 | ⟨ho, hs⟩
      · left
        show (e.snake.set_direction d).fst.segments.Nodup
        rw [Snake.set_direction_segments]
        exact h3
      · right
        refine ⟨ho, ?_⟩
        show (e.snake.set_direction d).fst.check_self_collision = true
        rw [Snake.set_direction_self]
        exact hs
    · show unitDir (e.snake.set_direction d).fst.direction
      rcases Snake.set_direction_dir e.snake d with hh | hh <;> rw [hh]
      · exact DIRECTIONS_unitDir name d hD
      · exact h4

theorem engineInv_update (e : GameEngine) (c : Nat) (h : EngineInv e) :
    EngineInv (e.update c).fst := by
  by_cases hov : e.game_over = true
  · rw [update_terminal e c hov]
    exact h
  · have hrun : e.game_over = false := by
      cases hg : e.game_over
      · rfl
      · exact absurd hg hov
    obtain ⟨h1, h2, h3, h4⟩ := h
    have hnodup : e.snake.segments.Nodup := by
      rcases h3 with h3 | ⟨ho, _⟩
      · exact h3
      · rw [hrun] at ho
        cases ho
    obtain ⟨a, t, hat⟩ : ∃ a t, e.snake.segments = a :: t := by
      cases hseg : e.snake.segments with
      | nil =>
        rw [Snake.get_length, hseg] at h1
        exact absurd h1 (by simp)
      | cons a t => exact ⟨a, t, rfl⟩
    by_cases heat : next_head e = e.food.position
    · rw [update_eq_eat e c hrun heat]
      obtain ⟨k1, k2, k3⟩ := snake_grow_inv e.snake a t hat h4 h2 hnodup
      exact engineInv_adjudicate (eatStep e c) k1 k2 k3 h4
    · rw [update_eq_move e c hrun heat]
      obtain ⟨k1, k2, k3⟩ := snake_move_inv e.snake a t hat h4 h2 hnodup
      exact engineInv_adjudicate (moveStep e) k1 k2 k3 h4

theorem engineInv_reachable (e : GameEngine) (h : Reachable e) : EngineInv e := by
  induction h with
  | init w h pos len choice hlen => exact engineInv_init w h pos len choice hlen
  | set_direction e name _ ih => exact engineInv_set_direction e name ih
  | update e choice _ ih => exact engineInv_update e choice ih
  | reset e choice _ ih => exact engineInv_reset e choice

/-- C8: in every reachable engine state the snake has length at least
one, its segments form a connected path of unit steps, and segments are
distinct except in the frozen state after a self-collision tick. -/
theorem C8_snake_invariant (e : GameEngine) (h : Reachable e) :
    1 ≤ e.snake.get_length ∧
    List.Chain' unitStep e.snake.segments ∧
    (e.snake.segments.Nodup ∨
      (e.game_over = true ∧ e.snake.check_self_collision = true)) := by
  obtain ⟨h1, h2, h3, _⟩ := engineInv_reachable e h
  exact ⟨h1, h2, h3⟩

set_option maxRecDepth 8000 in
/-- C8 witness: the default construction is reachable and satisfies the
invariant. -/
theorem C8_witness :
    1 ≤ (GameEngine.init 20 15 (10, 10) 3 0).snake.get_length ∧
    List.Chain' unitStep (GameEngine.init 20 15 (10, 10) 3 0).snake.segments ∧
    ((GameEngine.init 20 15 (10, 10) 3 0).snake.segments.Nodup ∨
      ((GameEngine.init 20 15 (10, 10) 3 0).game_over = true ∧
        (GameEngine.init 20 15 (10, 10) 3 0).snake.check_self_collision = true)) :=
  C8_snake_invariant (GameEngine.init 20 15 (10, 10) 3 0)
    (Reachable.init 20 15 (10, 10) 3 0 (by norm_num))
